import Mathlib

/-!
Shallow embedding of `src/waybar-weather-openweathermap.py`.

The script is a linear pipeline: load config, fetch a JSON weather
snapshot, format strings, print one JSON object.  We embed the pure
formatting/rendering core.  Python floats are modelled as rationals;
Python `int()` (truncation toward zero) is `pyInt`; Python `str(int)`
is `intRepr`; `str.ljust` is `pyLjust`; format-spec center alignment
is `pyCenter`; `"\n".join` is `joinNL`; `str.strip` is `pyStrip`;
`json.dumps` with its default `ensure_ascii=True` is `jsonDumps`.
The process-local timezone enters only through `time.strftime`
(and the textual repr of the `uvi` JSON number), so those are
parameters of the renderer, gathered in `Env`.
-/

/-! ## Definitions -/


/-- Python `int()` on a rational: truncation toward zero
(the denominator of a `Rat` is positive, so `Int.tdiv` is exact). -/
def pyInt (q : ℚ) : ℤ := Int.tdiv q.num q.den

/-- Decimal digits of `n`, most significant first; `fuel` bounds the
recursion depth (any `fuel > n` is enough). -/
def natReprAux : Nat → Nat → List Char
  | 0, _ => []
  | fuel + 1, n =>
    if n < 10 then [Nat.digitChar n]
    else natReprAux fuel (n / 10) ++ [Nat.digitChar (n % 10)]

/-- Decimal representation of a natural number, as Python `str`. -/
def natRepr (n : Nat) : String := String.mk (natReprAux (n + 1) n)

/-- Python `str` of an integer. -/
def intRepr (i : ℤ) : String :=
  if i < 0 then "-" ++ natRepr i.natAbs else natRepr i.toNat

/-- Python `str.ljust(w)` with space fill. -/
def pyLjust (s : String) (w : Nat) : String :=
  s ++ String.mk (List.replicate (w - s.length) ' ')

/-- Python format-spec center alignment (fill space, width `w`):
extra fill goes to the right on odd margins. -/
def pyCenter (s : String) (w : Nat) : String :=
  let marg := w - s.length
  let left := marg / 2
  String.mk (List.replicate left ' ') ++ s ++ String.mk (List.replicate (marg - left) ' ')

/-- Python `"\n".join`. -/
def joinNL : List String → String
  | [] => ""
  | [s] => s
  | s :: rest => s ++ "\n" ++ joinNL rest

/-- Python whitespace test used by `str.strip()` (the characters that
can actually occur at the edges of the tooltip are space and newline). -/
def isPySpace (c : Char) : Bool :=
  c = ' ' || c = '\n' || c = '\t' || c = '\r' || c = '\x0b' || c = '\x0c'

/-- Python `str.strip()`: drop leading and trailing whitespace. -/
def pyStrip (s : String) : String :=
  String.mk (((s.data.dropWhile isPySpace).reverse.dropWhile isPySpace).reverse)

/-- The 16-point compass of `format_wind_direction` (source lines 44-61). -/
def cardinal : List String :=
  ["N", "NNE", "NE", "ENE", "E", "ESE", "SE", "SSE",
   "S", "SSW", "SW", "WSW", "W", "WNW", "NW", "NNW"]

/-- Source line 62: `cardinal[((int((float(deg) / 22.5) + 0.5)) % 16)]`.
Python `%` on a positive modulus agrees with `Int.emod`; the index is
therefore in `[0, 16)` and the default of `getD` is never used. -/
def format_wind_direction (deg : ℚ) : String :=
  cardinal.getD ((pyInt (deg / 22.5 + 0.5)) % 16).toNat "?"

/-- Source line 70: `(str(int(float(temperature) - 273.15)) + "°").ljust(4)`. -/
def format_temp (temperature : ℚ) : String :=
  pyLjust (intRepr (pyInt (temperature - 273.15)) ++ "°") 4

/-- Python 3 `round()` to an integer: round half to even. -/
def pyRound (q : ℚ) : ℤ :=
  let f := pyInt q - (if q < 0 ∧ q ≠ pyInt q then 1 else 0)
  let r := q - f
  if r < 1/2 then f
  else if 1/2 < r then f + 1
  else if f % 2 = 0 then f else f + 1

/-- Number of occurrences of a character in a string. -/
def countChar (c : Char) (s : String) : Nat := s.data.count c

/-- `pat` occurs as a contiguous substring of `s`. -/
def strContains (s pat : String) : Prop := ∃ u v, s = u ++ pat ++ v

/-- `s` ends with `suf`. -/
def strEndsWith (s suf : String) : Prop := ∃ u, s = u ++ suf

/-- `weather[0]` of a record: condition descriptor. -/
structure Condition where
  icon : String
  description : String
deriving DecidableEq

/-- The `current` record (fields read at source lines 87-112). -/
structure CurrentRec where
  dt : ℤ
  temp : ℚ
  feels_like : ℚ
  humidity : ℕ
  uvi : ℚ
  wind_speed : ℚ
  wind_deg : ℚ
  weather : Condition
deriving DecidableEq

/-- One entry of the `hourly` sequence (fields read at lines 125-134). -/
structure HourRec where
  dt : ℤ
  temp : ℚ
  weather : Condition
deriving DecidableEq

/-- One entry of the `daily` sequence (fields read at lines 146-171). -/
structure DayRec where
  dt : ℤ
  temp_min : ℚ
  temp_max : ℚ
  humidity : ℕ
  uvi : ℚ
  wind_speed : ℚ
  wind_deg : ℚ
  weather : Condition
deriving DecidableEq

/-- An alert record; the JSON key `end` is the field `stop`, matching the
variable name used at source line 192. -/
structure Alert where
  start : ℤ
  stop : ℤ
  description : String
deriving DecidableEq

/-- The deserialized API response.  `alerts = none` models the absence of
the `"alerts"` key (line 177 tests key presence, so an empty list present
under the key is `some []`, not `none`). -/
structure Snapshot where
  current : CurrentRec
  hourly : List HourRec
  daily : List DayRec
  alerts : Option (List Alert)
deriving DecidableEq

/-- The `[icons]` table of the config: icon code to glyph, in file order. -/
abbrev Icons := List (String × String)

/-- Ambient environment of the renderer: `time.strftime(fmt,
time.localtime(t))` for the four format strings the script uses, under
the process-local timezone, plus the Python textual repr of the `uvi`
JSON number (floats themselves are not modelled). -/
structure Env where
  fmtT : ℤ → String
  fmtHM : ℤ → String
  fmtA : ℤ → String
  fmtHMA : ℤ → String
  reprNum : ℚ → String

/-- A failed Python dict lookup by key (`KeyError`). -/
structure KeyErr where
  key : String
deriving DecidableEq

/-- `icons[code]`: Python dict indexing, fatal on a missing key. -/
def lookupIcon (icons : Icons) (code : String) : Except KeyErr String :=
  match List.lookup code icons with
  | some glyph => Except.ok glyph
  | none => Except.error ⟨code⟩

/-- One observable action on the output streams. -/
inductive OutEvent where
  | write (s : String)
  | flush
deriving DecidableEq

/-- Number of `write` events in a trace. -/
def writeCount : List OutEvent → ℕ
  | [] => 0
  | OutEvent.write _ :: rest => writeCount rest + 1
  | OutEvent.flush :: rest => writeCount rest

/-- Lowercase 4-digit hex, as Python `"\\u%04x"`. -/
def hex4 (n : ℕ) : String :=
  String.mk [Nat.digitChar (n / 4096 % 16), Nat.digitChar (n / 256 % 16),
             Nat.digitChar (n / 16 % 16), Nat.digitChar (n % 16)]

/-- A `\uXXXX` escape. -/
def uEscape (n : ℕ) : String := "\\u" ++ hex4 n

/-- `json.dumps` escaping of one character with the default
`ensure_ascii=True`: short escapes for the two JSON specials and the
common controls, `\uXXXX` for other controls and all non-ASCII
(surrogate pairs above the basic plane), the character itself for
printable ASCII. -/
def jsonEscapeChar (c : Char) : String :=
  if c = '"' then "\\\""
  else if c = '\\' then "\\\\"
  else if c = '\n' then "\\n"
  else if c = '\r' then "\\r"
  else if c = '\t' then "\\t"
  else if c = '\x08' then "\\b"
  else if c = '\x0c' then "\\f"
  else if c.toNat < 0x20 then uEscape c.toNat
  else if c.toNat < 0x7f then String.mk [c]
  else if c.toNat < 0x10000 then uEscape c.toNat
  else uEscape (0xd800 + (c.toNat - 0x10000) / 0x400) ++
       uEscape (0xdc00 + (c.toNat - 0x10000) % 0x400)

/-- Concatenation of a list of strings. -/
def strConcat : List String → String
  | [] => ""
  | s :: rest => s ++ strConcat rest

/-- A JSON string literal for `s`. -/
def jsonStr (s : String) : String :=
  "\"" ++ strConcat (s.data.map jsonEscapeChar) ++ "\""

/-- `json.dumps({"text": text, "tooltip": tooltip})` with the default
separators. -/
def jsonDumps (text tooltip : String) : String :=
  "\x7b\"text\": " ++ jsonStr text ++ ", \"tooltip\": " ++ jsonStr tooltip ++ "\x7d"

/-- Source lines 73-79: JSON-encode and print the output.  The tooltip
is stripped, the text is passed through as built; one write then one
flush on stdout. -/
def sys_output (text tooltip : String) : List OutEvent :=
  [OutEvent.write (jsonDumps text (pyStrip tooltip)), OutEvent.flush]

/-- Lines 118-123: the hourly loop skips an index when
`i < 1 or i % 3 or i > 12`. -/
def hourSkip (i : ℕ) : Bool := i < 1 || i % 3 != 0 || i > 12

/-- Lines 141-144: the daily loop skips an index when `i < 1 or i >= 4`. -/
def daySkip (i : ℕ) : Bool := i < 1 || i ≥ 4

/-- Lines 132-137: the tooltip fragment one selected hourly entry
appends, given its glyph. -/
def hourLine (env : Env) (glyph : String) (h : HourRec) : String :=
  joinNL [env.fmtHM h.dt ++ " | " ++ pyCenter (format_temp h.temp) 4 ++ " | "
            ++ glyph ++ " (" ++ h.weather.description ++ ")",
          ""]

/-- The hourly loop (lines 118-137) over the enumerated sequence; a
missing glyph for a selected entry raises, as Python dict indexing does. -/
def renderHours (env : Env) (icons : Icons) : List (ℕ × HourRec) → Except KeyErr String
  | [] => Except.ok ""
  | (i, h) :: rest =>
    if hourSkip i then renderHours env icons rest
    else do
      let glyph ← lookupIcon icons h.weather.icon
      let tail ← renderHours env icons rest
      Except.ok (hourLine env glyph h ++ tail)

/-- Lines 161-175: the tooltip fragment one selected daily entry
appends, given its glyph. -/
def dayLine (env : Env) (glyph : String) (d : DayRec) : String :=
  joinNL ["<b>" ++ env.fmtA d.dt ++ "</b>",
          "---",
          "",
          glyph ++ " (" ++ d.weather.description ++ ")",
          "",
          "Wind:  " ++ pyLjust (format_wind_direction d.wind_deg) 3 ++ " "
            ++ intRepr (pyRound d.wind_speed) ++ " m/s",
          "Temp:  " ++ format_temp d.temp_min ++ " to " ++ format_temp d.temp_max,
          "Humid: " ++ natRepr d.humidity ++ "%",
          "UV:    " ++ env.reprNum d.uvi,
          "",
          ""]

/-- The daily loop (lines 141-175) over the enumerated sequence. -/
def renderDays (env : Env) (icons : Icons) : List (ℕ × DayRec) → Except KeyErr String
  | [] => Except.ok ""
  | (i, d) :: rest =>
    if daySkip i then renderDays env icons rest
    else do
      let glyph ← lookupIcon icons d.weather.icon
      let tail ← renderDays env icons rest
      Except.ok (dayLine env glyph d ++ tail)

/-- Lines 102-116: the current-conditions block of the tooltip. -/
def currentBlock (env : Env) (glyph : String) (c : CurrentRec) : String :=
  joinNL ["<b>Now</b>",
          "---",
          "",
          glyph ++ " (" ++ c.weather.description ++ ")",
          "",
          "Wind:  " ++ pyLjust (format_wind_direction c.wind_deg) 3 ++ " "
            ++ intRepr (pyRound c.wind_speed) ++ " m/s",
          "Feels: " ++ format_temp c.feels_like,
          "Humid: " ++ natRepr c.humidity ++ "%",
          "UV:    " ++ env.reprNum c.uvi,
          "",
          ""]

/-- Line 99: the always-visible text before any alert suffix. -/
def textBase (glyph : String) (c : CurrentRec) : String :=
  glyph ++ " " ++ format_temp c.temp

/-- Line 179: a fixed warning suffix is appended to `text` exactly when
the `"alerts"` key is present. -/
def alertsSuffix : Option (List Alert) → String
  | none => ""
  | some _ => " ⚠️ "

/-- Lines 196-205: the tooltip fragment one alert appends. -/
def renderAlert (env : Env) (a : Alert) : String :=
  joinNL ["<i>" ++ env.fmtHMA a.start ++ "</i> - <i>" ++ env.fmtHMA a.stop ++ "</i>",
          "-",
          "",
          a.description,
          "",
          ""]

/-- Lines 191-205: the alert loop, in sequence order. -/
def renderAlertList (env : Env) : List Alert → String
  | [] => ""
  | a :: rest => renderAlert env a ++ renderAlertList env rest

/-- Lines 177-205: the whole alerts section of the tooltip; empty when
the `"alerts"` key is absent. -/
def alertsBlock (env : Env) : Option (List Alert) → String
  | none => ""
  | some as => joinNL ["<b>Alerts</b>", "---", "", ""] ++ renderAlertList env as

/-- Line 207: the footer, using the timestamp of the current record. -/
def footerLine (env : Env) (c : CurrentRec) : String :=
  joinNL ["<small>last update: " ++ env.fmtT c.dt ++ "</small>", ""]

/-- Lines 82-207 up to the output call: build `(text, tooltip)`.
The only fallible steps are the glyph lookups; the current-condition
lookup (line 99) comes first, then the hourly and the daily loop. -/
def render (env : Env) (icons : Icons) (x : Snapshot) : Except KeyErr (String × String) := do
  let glyph ← lookupIcon icons x.current.weather.icon
  let hoursStr ← renderHours env icons x.hourly.enum
  let daysStr ← renderDays env icons x.daily.enum
  Except.ok
    (textBase glyph x.current ++ alertsSuffix x.alerts,
     currentBlock env glyph x.current ++ hoursStr ++ "\n" ++ daysStr
       ++ alertsBlock env x.alerts ++ footerLine env x.current)

/-- Lines 82-209: the body of `main` (the name itself is reserved by
Lean): build the two strings and hand them to `sys_output`; a failed
lookup raises instead, producing no output. -/
def main' (env : Env) (icons : Icons) (x : Snapshot) : Except KeyErr (List OutEvent) := do
  let (text, tooltip) ← render env icons x
  Except.ok (sys_output text tooltip)

/-- The hourly loop restricted to the entries it actually keeps
(selection already applied); used to state what `renderHours` selects. -/
def renderHoursSel (env : Env) (icons : Icons) : List HourRec → Except KeyErr String
  | [] => Except.ok ""
  | h :: rest => do
    let glyph ← lookupIcon icons h.weather.icon
    let tail ← renderHoursSel env icons rest
    Except.ok (hourLine env glyph h ++ tail)

/-- The daily loop restricted to the entries it actually keeps. -/
def renderDaysSel (env : Env) (icons : Icons) : List DayRec → Except KeyErr String
  | [] => Except.ok ""
  | d :: rest => do
    let glyph ← lookupIcon icons d.weather.icon
    let tail ← renderDaysSel env icons rest
    Except.ok (dayLine env glyph d ++ tail)

/-- A concrete environment: constant timestamp renderings, as one fixed
local timezone would produce for the fixture instants. -/
def env0 : Env :=
  ⟨fun _ => "00:00:00", fun _ => "01:00", fun _ => "Mon", fun _ => "01:00 Mon", fun _ => "0"⟩

def cond0 : Condition := ⟨"01d", "clear sky"⟩

def current0 : CurrentRec := ⟨0, 300, 273.15, 50, 0, 4, 180, cond0⟩

def hour0 : HourRec := ⟨3600, 300, cond0⟩

def day0 : DayRec := ⟨86400, 273.15, 300, 40, 1, 4, 0, cond0⟩

def alert0 : Alert := ⟨100, 200, "flood warning"⟩

def icons0 : Icons := [("01d", "☀")]

/-- Snapshot without the `alerts` key. -/
def snapNone : Snapshot := ⟨current0, [], [], none⟩

/-- Snapshot with exactly one alert. -/
def snapOne : Snapshot := ⟨current0, [], [], some [alert0]⟩

/-- Snapshot whose `alerts` key is present but holds an empty list. -/
def snapEmptyAlerts : Snapshot := ⟨current0, [], [], some []⟩

/-- Side condition for C4: the configured glyphs contain neither the
warning glyph nor a capital `A` (they are weather symbols). -/
def iconsClean (icons : Icons) : Prop :=
  ∀ p ∈ icons, countChar '⚠' p.2 = 0 ∧ countChar 'A' p.2 = 0

/-- Side condition for C4: the timestamp renderings and the number repr
contain no capital `A` (true of `%T`, `%H:%M`, `%a`, `%H:%M %a` output
and of numeric reprs). -/
def envClean (env : Env) : Prop :=
  (∀ i : ℤ, countChar 'A' (env.fmtT i) = 0)
  ∧ (∀ i : ℤ, countChar 'A' (env.fmtHM i) = 0)
  ∧ (∀ i : ℤ, countChar 'A' (env.fmtA i) = 0)
  ∧ (∀ q : ℚ, countChar 'A' (env.reprNum q) = 0)

/-- Side condition for C4: the condition descriptions in the snapshot
contain no capital `A`. -/
def snapClean (x : Snapshot) : Prop :=
  countChar 'A' x.current.weather.description = 0
  ∧ (∀ h ∈ x.hourly, countChar 'A' h.weather.description = 0)
  ∧ (∀ d ∈ x.daily, countChar 'A' d.weather.description = 0)

/-! ## Theorems -/

/-- `pyInt` really is truncation toward zero: floor for nonnegative
arguments, ceiling for negative ones. -/
theorem pyInt_eq (q : ℚ) : pyInt q = if 0 ≤ q then ⌊q⌋ else ⌈q⌉ := by
  unfold pyInt
  split
  case isTrue h =>
    rw [Int.tdiv_eq_ediv (Rat.num_nonneg.mpr h) (Int.ofNat_nonneg _), Rat.floor_def]
  case isFalse h =>
    have hn : 0 ≤ -q.num := by
      have := Rat.num_nonneg (q := -q)
      rw [Rat.neg_num] at this
      exact this.mpr (by push_neg at h; exact le_of_lt (neg_pos.mpr h))
    have h1 : Int.tdiv q.num q.den = -Int.tdiv (-q.num) q.den := by
      rw [Int.neg_tdiv, neg_neg]
    rw [h1, Int.tdiv_eq_ediv hn (Int.ofNat_nonneg _)]
    have h2 : ⌊-q⌋ = -q.num / q.den := by
      rw [Rat.floor_def, Rat.neg_num, Rat.neg_den]
    rw [← h2, Int.floor_neg, neg_neg]

theorem format_temp_300 : format_temp 300 = "26° " := by
  have h : pyInt ((300 : ℚ) - 273.15) = 26 := by
    rw [pyInt_eq, if_pos (by norm_num : (0:ℚ) ≤ 300 - 273.15)]
    norm_num
  unfold format_temp
  rw [h]
  decide

theorem format_temp_27315 : format_temp (273.15 : ℚ) = "0°  " := by
  have h : pyInt ((273.15 : ℚ) - 273.15) = 0 := by
    rw [pyInt_eq, if_pos (by norm_num : (0:ℚ) ≤ 273.15 - 273.15)]
    norm_num
  unfold format_temp
  rw [h]
  decide

theorem countChar_append (c : Char) (a b : String) :
    countChar c (a ++ b) = countChar c a + countChar c b := by
  simp [countChar, String.data_append, List.count_append]

theorem countChar_eq_zero {c : Char} {s : String} (h : c ∉ s.data) :
    countChar c s = 0 :=
  List.count_eq_zero.mpr h

/-- Appearing as a substring cannot raise a character count above the
count of the whole. -/
theorem strContains_count_le {s pat : String} (h : strContains s pat) (c : Char) :
    countChar c pat ≤ countChar c s := by
  obtain ⟨u, v, rfl⟩ := h
  rw [countChar_append, countChar_append]
  omega

theorem not_strContains_of_count {s pat : String} {c : Char}
    (hs : countChar c s = 0) (hp : 0 < countChar c pat) : ¬ strContains s pat := by
  intro h
  have := strContains_count_le h c
  omega

theorem digitChar_isDigit {d : ℕ} (h : d < 10) : (Nat.digitChar d).isDigit = true := by
  interval_cases d <;> decide

theorem natReprAux_digits :
    ∀ (fuel n : ℕ), ∀ c ∈ natReprAux fuel n, c.isDigit = true := by
  intro fuel
  induction fuel with
  | zero => intro n c hc; simp [natReprAux] at hc
  | succ f ih =>
    intro n c hc
    unfold natReprAux at hc
    split at hc
    case isTrue h =>
      simp at hc
      subst hc
      exact digitChar_isDigit h
    case isFalse h =>
      rcases List.mem_append.mp hc with h1 | h1
      · exact ih _ c h1
      · simp at h1
        subst h1
        exact digitChar_isDigit (Nat.mod_lt _ (by omega))

theorem natRepr_digits (n : ℕ) : ∀ c ∈ (natRepr n).data, c.isDigit = true :=
  natReprAux_digits (n + 1) n

theorem countChar_natRepr {c : Char} (hc : c.isDigit = false) (n : ℕ) :
    countChar c (natRepr n) = 0 := by
  refine countChar_eq_zero (fun h => ?_)
  have := natRepr_digits n c h
  rw [hc] at this
  exact Bool.false_ne_true this

theorem countChar_intRepr {c : Char} (hc : c.isDigit = false) (hm : c ≠ '-') (i : ℤ) :
    countChar c (intRepr i) = 0 := by
  unfold intRepr
  split
  · rw [countChar_append, countChar_natRepr hc]
    have : c ∉ ("-" : String).data := by
      intro h
      simp [String.data] at h
      exact hm h
    rw [countChar_eq_zero this]
  · exact countChar_natRepr hc _

theorem countChar_replicate_space {c : Char} (hc : c ≠ ' ') (k : ℕ) :
    countChar c (String.mk (List.replicate k ' ')) = 0 := by
  refine countChar_eq_zero (fun h => ?_)
  exact hc (List.eq_of_mem_replicate h)

theorem countChar_pyLjust {c : Char} (hc : c ≠ ' ') (s : String) (w : ℕ) :
    countChar c (pyLjust s w) = countChar c s := by
  unfold pyLjust
  rw [countChar_append, countChar_replicate_space hc]
  omega

theorem countChar_pyCenter {c : Char} (hc : c ≠ ' ') (s : String) (w : ℕ) :
    countChar c (pyCenter s w) = countChar c s := by
  unfold pyCenter
  rw [countChar_append, countChar_append, countChar_replicate_space hc,
    countChar_replicate_space hc]
  omega

theorem countChar_format_temp {c : Char} (hc : c.isDigit = false) (hm : c ≠ '-')
    (hd : c ≠ '°') (hs : c ≠ ' ') (q : ℚ) : countChar c (format_temp q) = 0 := by
  unfold format_temp
  rw [countChar_pyLjust hs, countChar_append, countChar_intRepr hc hm]
  have : c ∉ ("°" : String).data := by
    intro h
    simp [String.data] at h
    exact hd h
  rw [countChar_eq_zero this]

/-- Every compass string is one of the sixteen, whatever the input. -/
theorem format_wind_direction_mem (d : ℚ) : format_wind_direction d ∈ cardinal := by
  unfold format_wind_direction
  have hlt : ((pyInt (d / 22.5 + 0.5)) % 16).toNat < 16 := by omega
  rw [List.getD_eq_getElem cardinal "?" (by simpa [cardinal] using hlt)]
  exact List.getElem_mem _

theorem cardinal_chars :
    ∀ s ∈ cardinal, ∀ c ∈ s.data, c = 'N' ∨ c = 'E' ∨ c = 'S' ∨ c = 'W' := by
  decide

theorem countChar_format_wind_direction {c : Char}
    (hN : c ≠ 'N') (hE : c ≠ 'E') (hS : c ≠ 'S') (hW : c ≠ 'W') (d : ℚ) :
    countChar c (format_wind_direction d) = 0 := by
  refine countChar_eq_zero (fun h => ?_)
  rcases cardinal_chars _ (format_wind_direction_mem d) c h with h1 | h1 | h1 | h1
  exacts [hN h1, hE h1, hS h1, hW h1]

theorem digitChar_ne_nl {d : ℕ} (h : d < 16) : Nat.digitChar d ≠ '\n' := by
  interval_cases d <;> decide

theorem uEscape_no_nl (n : ℕ) : '\n' ∉ (uEscape n).data := by
  intro h
  simp only [uEscape, hex4, String.data_append] at h
  have hu : ('\n' : Char) ∉ ("\\u" : String).data := by decide
  rcases List.mem_append.mp h with h1 | h1
  · exact hu h1
  · simp only [String.mk, List.mem_cons, List.not_mem_nil, or_false] at h1
    rcases h1 with h1 | h1 | h1 | h1 <;>
      exact absurd h1.symm (digitChar_ne_nl (Nat.mod_lt _ (by omega)))

set_option maxHeartbeats 2000000 in
theorem jsonEscapeChar_no_nl (c : Char) : '\n' ∉ (jsonEscapeChar c).data := by
  unfold jsonEscapeChar
  split_ifs with h1 h2 h3 h4 h5 h6 h7 h8 h9 h10
  · decide
  · decide
  · decide
  · decide
  · decide
  · decide
  · decide
  · exact uEscape_no_nl _
  · intro h
    simp only [String.mk, List.mem_cons, List.not_mem_nil, or_false] at h
    subst h
    exact h8 (by decide)
  · exact uEscape_no_nl _
  · intro h
    rcases List.mem_append.mp (by simpa [String.data_append] using h) with hh | hh
    · exact uEscape_no_nl _ hh
    · exact uEscape_no_nl _ hh

theorem strConcat_mem {c : Char} :
    ∀ {l : List String}, c ∈ (strConcat l).data → ∃ s ∈ l, c ∈ s.data := by
  intro l
  induction l with
  | nil => intro h; simp [strConcat] at h
  | cons s rest ih =>
    intro h
    rcases List.mem_append.mp (by simpa [strConcat, String.data_append] using h) with hh | hh
    · exact ⟨s, List.mem_cons_self _ _, hh⟩
    · obtain ⟨t, ht, hc⟩ := ih hh
      exact ⟨t, List.mem_cons_of_mem _ ht, hc⟩

theorem jsonStr_no_nl (s : String) : '\n' ∉ (jsonStr s).data := by
  intro h
  simp only [jsonStr, String.data_append] at h
  rcases List.mem_append.mp h with hh | hh
  · rcases List.mem_append.mp hh with h3 | h3
    · simp at h3
    · obtain ⟨t, ht, hc⟩ := strConcat_mem h3
      obtain ⟨c0, _, rfl⟩ := List.mem_map.mp ht
      exact jsonEscapeChar_no_nl c0 hc
  · simp at hh

/-- The serialized output is a single line: the escaping leaves no raw
newline anywhere in the dumped object. -/
theorem jsonDumps_no_nl (text tooltip : String) : '\n' ∉ (jsonDumps text tooltip).data := by
  intro h
  simp only [jsonDumps, String.data_append] at h
  rcases List.mem_append.mp h with hh | hh
  · rcases List.mem_append.mp hh with hh | hh
    · rcases List.mem_append.mp hh with hh | hh
      · rcases List.mem_append.mp hh with hh | hh
        · simp at hh
        · exact jsonStr_no_nl _ hh
      · simp at hh
    · exact jsonStr_no_nl _ hh
  · simp at hh

theorem filter_map_fst_hour (ps : List (ℕ × HourRec)) :
    (ps.filter (fun p => !hourSkip p.1)).map Prod.fst
      = (ps.map Prod.fst).filter (fun i => !hourSkip i) := by
  induction ps with
  | nil => rfl
  | cons p rest ih =>
    by_cases hq : hourSkip p.1 = true <;> simp [List.filter_cons, hq, ih]

theorem filter_map_fst_day (ps : List (ℕ × DayRec)) :
    (ps.filter (fun p => !daySkip p.1)).map Prod.fst
      = (ps.map Prod.fst).filter (fun i => !daySkip i) := by
  induction ps with
  | nil => rfl
  | cons p rest ih =>
    by_cases hq : daySkip p.1 = true <;> simp [List.filter_cons, hq, ih]

theorem renderHours_eq (env : Env) (icons : Icons) :
    ∀ ps : List (ℕ × HourRec), renderHours env icons ps
      = renderHoursSel env icons ((ps.filter (fun p => !hourSkip p.1)).map Prod.snd) := by
  intro ps
  induction ps with
  | nil => rfl
  | cons p rest ih =>
    obtain ⟨i, h⟩ := p
    by_cases hs : hourSkip i = true
    · simp [renderHours, hs, List.filter_cons, ih]
    · simp [renderHours, renderHoursSel, hs, List.filter_cons, ih]

theorem renderDays_eq (env : Env) (icons : Icons) :
    ∀ ps : List (ℕ × DayRec), renderDays env icons ps
      = renderDaysSel env icons ((ps.filter (fun p => !daySkip p.1)).map Prod.snd) := by
  intro ps
  induction ps with
  | nil => rfl
  | cons p rest ih =>
    obtain ⟨i, d⟩ := p
    by_cases hs : daySkip i = true
    · simp [renderDays, hs, List.filter_cons, ih]
    · simp [renderDays, renderDaysSel, hs, List.filter_cons, ih]

theorem hourly_indices_of_ge {n : ℕ} (hn : 13 ≤ n) :
    (List.range n).filter (fun i => !hourSkip i) = [3, 6, 9, 12] := by
  obtain ⟨k, rfl⟩ := Nat.exists_eq_add_of_le hn
  rw [List.range_add, List.filter_append]
  have h2 : (List.map (fun x => 13 + x) (List.range k)).filter (fun i => !hourSkip i) = [] := by
    refine List.filter_eq_nil_iff.mpr (fun a ha => ?_)
    obtain ⟨x, _, rfl⟩ := List.mem_map.mp ha
    simp [hourSkip]
    omega
  rw [h2, List.append_nil]
  decide

theorem daily_indices_of_ge {n : ℕ} (hn : 4 ≤ n) :
    (List.range n).filter (fun i => !daySkip i) = [1, 2, 3] := by
  obtain ⟨k, rfl⟩ := Nat.exists_eq_add_of_le hn
  rw [List.range_add, List.filter_append]
  have h2 : (List.map (fun x => 4 + x) (List.range k)).filter (fun i => !daySkip i) = [] := by
    refine List.filter_eq_nil_iff.mpr (fun a ha => ?_)
    obtain ⟨x, _, rfl⟩ := List.mem_map.mp ha
    simp [daySkip]
  rw [h2, List.append_nil]
  decide

/-- C1: the hourly block renders exactly the entries at indices `i` with
`i ≥ 1`, `i % 3 = 0` and `i ≤ 12`: the loop equals the loop over the
selected sublist, the kept index list is the filtered range, the filter
is exactly the stated index predicate, and for length ≥ 13 the kept
indices are `[3, 6, 9, 12]` while for length 5 they are `[3]`. -/
theorem C1_hourly_selection (l : List HourRec) :
    (∀ env icons, renderHours env icons l.enum
        = renderHoursSel env icons ((l.enum.filter (fun p => !hourSkip p.1)).map Prod.snd))
    ∧ ((l.enum.filter (fun p => !hourSkip p.1)).map Prod.fst
        = (List.range l.length).filter (fun i => !hourSkip i))
    ∧ (∀ i : ℕ, (!hourSkip i) = true ↔ (1 ≤ i ∧ i % 3 = 0 ∧ i ≤ 12))
    ∧ (13 ≤ l.length → (List.range l.length).filter (fun i => !hourSkip i) = [3, 6, 9, 12])
    ∧ (l.length = 5 → (List.range l.length).filter (fun i => !hourSkip i) = [3]) := by
  refine ⟨fun env icons => renderHours_eq env icons l.enum, ?_, ?_, ?_, ?_⟩
  · rw [filter_map_fst_hour, List.enum_map_fst]
  · intro i
    simp [hourSkip]
    omega
  · exact fun h => hourly_indices_of_ge h
  · intro h
    rw [h]
    decide

/-- Witness for C1 at concrete lengths 13 and 5. -/
theorem C1_hourly_selection_witness :
    (List.range (List.replicate 13 hour0).length).filter (fun i => !hourSkip i) = [3, 6, 9, 12]
    ∧ (List.range (List.replicate 5 hour0).length).filter (fun i => !hourSkip i) = [3] :=
  ⟨(C1_hourly_selection (List.replicate 13 hour0)).2.2.2.1 (by simp),
   (C1_hourly_selection (List.replicate 5 hour0)).2.2.2.2 (by simp)⟩

/-- C5: the daily block renders exactly the entries at indices 1, 2, 3,
in sequence order, whenever the daily sequence has length ≥ 4. -/
theorem C5_daily_selection (l : List DayRec) :
    (∀ env icons, renderDays env icons l.enum
        = renderDaysSel env icons ((l.enum.filter (fun p => !daySkip p.1)).map Prod.snd))
    ∧ ((l.enum.filter (fun p => !daySkip p.1)).map Prod.fst
        = (List.range l.length).filter (fun i => !daySkip i))
    ∧ (∀ i : ℕ, (!daySkip i) = true ↔ (1 ≤ i ∧ i ≤ 3))
    ∧ (4 ≤ l.length → (List.range l.length).filter (fun i => !daySkip i) = [1, 2, 3]) := by
  refine ⟨fun env icons => renderDays_eq env icons l.enum, ?_, ?_, ?_⟩
  · rw [filter_map_fst_day, List.enum_map_fst]
  · intro i
    simp [daySkip]
    omega
  · exact fun h => daily_indices_of_ge h

/-- Witness for C5 at concrete length 4. -/
theorem C5_daily_selection_witness :
    (List.range (List.replicate 4 day0).length).filter (fun i => !daySkip i) = [1, 2, 3] :=
  (C5_daily_selection (List.replicate 4 day0)).2.2.2 (by simp)

theorem lookup_mem {l : Icons} {k v : String} (h : List.lookup k l = some v) : (k, v) ∈ l := by
  induction l with
  | nil => simp [List.lookup] at h
  | cons p rest ih =>
    obtain ⟨a, b⟩ := p
    rw [List.lookup] at h
    split at h
    · rename_i hk
      simp at h hk
      subst h
      subst hk
      exact List.mem_cons_self _ _
    · exact List.mem_cons_of_mem _ (ih h)

/-- `render` succeeds exactly when the three fallible lookup phases do,
and then `text` and `tooltip` have the stated shapes. -/
theorem render_ok_iff (env : Env) (icons : Icons) (x : Snapshot) (t tt : String) :
    render env icons x = Except.ok (t, tt) ↔
    ∃ glyph hoursStr daysStr,
      lookupIcon icons x.current.weather.icon = Except.ok glyph
      ∧ renderHours env icons x.hourly.enum = Except.ok hoursStr
      ∧ renderDays env icons x.daily.enum = Except.ok daysStr
      ∧ t = textBase glyph x.current ++ alertsSuffix x.alerts
      ∧ tt = currentBlock env glyph x.current ++ hoursStr ++ "\n" ++ daysStr
          ++ alertsBlock env x.alerts ++ footerLine env x.current := by
  constructor
  · intro hr
    cases hg : lookupIcon icons x.current.weather.icon with
    | error e => simp [render, hg, Bind.bind, Except.bind] at hr
    | ok glyph =>
      cases hh : renderHours env icons x.hourly.enum with
      | error e => simp [render, hg, hh, Bind.bind, Except.bind] at hr
      | ok hoursStr =>
        cases hd : renderDays env icons x.daily.enum with
        | error e => simp [render, hg, hh, hd, Bind.bind, Except.bind] at hr
        | ok daysStr =>
          simp only [render, hg, hh, hd] at hr
          simp only [Bind.bind, Except.bind, Except.ok.injEq, Prod.mk.injEq] at hr
          exact ⟨glyph, hoursStr, daysStr, rfl, rfl, rfl, hr.1.symm, hr.2.symm⟩
  · rintro ⟨glyph, hoursStr, daysStr, h1, h2, h3, rfl, rfl⟩
    simp [render, h1, h2, h3, Bind.bind, Except.bind]

/-- C6: a snapshot whose current-condition icon code has no entry in the
icon table makes the program fail with the key-lookup error naming that
code; no success value (and hence no output event) is ever produced. -/
theorem C6_icon_lookup_failure (env : Env) (icons : Icons) (x : Snapshot)
    (h : List.lookup x.current.weather.icon icons = none) :
    main' env icons x = Except.error ⟨x.current.weather.icon⟩
    ∧ ∀ evs, main' env icons x ≠ Except.ok evs := by
  have hm : main' env icons x = Except.error ⟨x.current.weather.icon⟩ := by
    simp [main', render, lookupIcon, h, Bind.bind, Except.bind]
  exact ⟨hm, fun evs hc => by rw [hm] at hc; exact Except.noConfusion hc⟩

/-- Witness for C6: the empty icon table misses the fixture icon code. -/
theorem C6_icon_lookup_failure_witness :
    main' env0 [] snapNone = Except.error ⟨"01d"⟩
    ∧ ∀ evs, main' env0 [] snapNone ≠ Except.ok evs :=
  C6_icon_lookup_failure env0 [] snapNone rfl

/-- C8: the rendering pipeline is deterministic in its inputs — with the
environment (local timezone) and icon table fixed, equal snapshots give
byte-identical tooltips. -/
theorem C8_deterministic (env : Env) (icons : Icons) (x y : Snapshot) (h : x = y) :
    (render env icons x).map Prod.snd = (render env icons y).map Prod.snd := by
  rw [h]

/-- Witness for C8 on a concrete successful snapshot. -/
theorem C8_deterministic_witness :
    (render env0 icons0 snapOne).toOption.isSome = true
    ∧ (render env0 icons0 snapOne).map Prod.snd = (render env0 icons0 snapOne).map Prod.snd :=
  ⟨rfl, C8_deterministic env0 icons0 snapOne snapOne rfl⟩

/-- C7: on the success path the program emits exactly one write — the
JSON object of the text as built and the stripped tooltip — followed by
one flush, and the written string contains no raw newline. -/
theorem C7_output_writer (env : Env) (icons : Icons) (x : Snapshot) (evs : List OutEvent)
    (h : main' env icons x = Except.ok evs) :
    ∃ t tt, render env icons x = Except.ok (t, tt)
      ∧ evs = [OutEvent.write (jsonDumps t (pyStrip tt)), OutEvent.flush]
      ∧ writeCount evs = 1
      ∧ '\n' ∉ (jsonDumps t (pyStrip tt)).data := by
  cases hr : render env icons x with
  | error e => simp [main', hr, Bind.bind, Except.bind] at h
  | ok p =>
    obtain ⟨t, tt⟩ := p
    simp only [main', hr] at h
    simp only [Bind.bind, Except.bind, Except.ok.injEq] at h
    refine ⟨t, tt, rfl, h.symm, ?_, jsonDumps_no_nl t (pyStrip tt)⟩
    rw [← h]
    rfl

/-- Witness for C7 on a concrete successful run. -/
theorem C7_output_writer_witness :
    ∃ t tt, render env0 icons0 snapNone = Except.ok (t, tt)
      ∧ (main' env0 icons0 snapNone).toOption.getD []
          = [OutEvent.write (jsonDumps t (pyStrip tt)), OutEvent.flush]
      ∧ writeCount ((main' env0 icons0 snapNone).toOption.getD []) = 1
      ∧ '\n' ∉ (jsonDumps t (pyStrip tt)).data :=
  C7_output_writer env0 icons0 snapNone _ rfl

theorem strMk_append (a b : List Char) : String.mk (a ++ b) = String.mk a ++ String.mk b := rfl

theorem alertsHeader_eq : joinNL ["<b>Alerts</b>", "---", "", ""] = "<b>Alerts</b>\n---\n\n" := by
  decide

theorem alertsBlock_empty (env : Env) : alertsBlock env (some []) = "<b>Alerts</b>\n---\n\n" := by
  simp [alertsBlock, renderAlertList, alertsHeader_eq]

theorem alertsBlock_one (env : Env) (a : Alert) :
    alertsBlock env (some [a]) = "<b>Alerts</b>\n---\n\n" ++ renderAlert env a := by
  simp [alertsBlock, renderAlertList, alertsHeader_eq]

/-- C9: when the `alerts` key is present but its list is empty, the
warning suffix is still appended to the text and the Alerts header block
is still emitted, directly followed by the footer (zero alert entries):
the trigger is key presence, not non-emptiness. -/
theorem C9_empty_alerts_key (env : Env) (icons : Icons) (x : Snapshot) (t tt : String)
    (ha : x.alerts = some [])
    (hr : render env icons x = Except.ok (t, tt)) :
    strEndsWith t " ⚠️ "
    ∧ ∃ pre, tt = pre ++ "<b>Alerts</b>\n---\n\n" ++ footerLine env x.current := by
  obtain ⟨glyph, hoursStr, daysStr, _, _, _, rfl, rfl⟩ := (render_ok_iff env icons x t tt).mp hr
  rw [ha]
  constructor
  · exact ⟨textBase glyph x.current, rfl⟩
  · refine ⟨currentBlock env glyph x.current ++ hoursStr ++ "\n" ++ daysStr, ?_⟩
    rw [alertsBlock_empty]

/-- Witness for C9 on a concrete snapshot with an empty alert list. -/
theorem C9_empty_alerts_key_witness :
    strEndsWith ((render env0 icons0 snapEmptyAlerts).toOption.getD ("", "")).1 " ⚠️ "
    ∧ ∃ pre, ((render env0 icons0 snapEmptyAlerts).toOption.getD ("", "")).2
        = pre ++ "<b>Alerts</b>\n---\n\n" ++ footerLine env0 snapEmptyAlerts.current :=
  C9_empty_alerts_key env0 icons0 snapEmptyAlerts _ _ rfl rfl

/-- C10: only the tooltip is trimmed before serialization — the text
field is serialized as built.  Hence without alerts the text ends with
the padding spaces `format_temp` appended (at least one space when the
numeral-plus-glyph part is shorter than 4), and with alerts present the
text ends with the suffix `" ⚠️ "` including its trailing space. -/
theorem C10_trim_asymmetry (env : Env) (icons : Icons) (x : Snapshot) (t tt : String)
    (hr : render env icons x = Except.ok (t, tt)) :
    main' env icons x = Except.ok [OutEvent.write (jsonDumps t (pyStrip tt)), OutEvent.flush]
    ∧ (x.alerts = none →
        strEndsWith t (String.mk (List.replicate
          (4 - (intRepr (pyInt (x.current.temp - 273.15)) ++ "°").length) ' '))
        ∧ ((intRepr (pyInt (x.current.temp - 273.15)) ++ "°").length < 4 →
            strEndsWith t " "))
    ∧ (∀ as, x.alerts = some as → strEndsWith t " ⚠️ ") := by
  obtain ⟨glyph, hoursStr, daysStr, h1, h2, h3, ht, htt⟩ := (render_ok_iff env icons x t tt).mp hr
  refine ⟨?_, ?_, ?_⟩
  · simp [main', hr, sys_output, Bind.bind, Except.bind]
  · intro hnone
    subst ht
    rw [hnone]
    constructor
    · refine ⟨glyph ++ " " ++ (intRepr (pyInt (x.current.temp - 273.15)) ++ "°"), ?_⟩
      simp [textBase, alertsSuffix, format_temp, pyLjust, String.append_assoc, String.append_empty]
    · intro hlen
      obtain ⟨k, hk⟩ : ∃ k, 4 - (intRepr (pyInt (x.current.temp - 273.15)) ++ "°").length
          = k + 1 :=
        ⟨4 - (intRepr (pyInt (x.current.temp - 273.15)) ++ "°").length - 1, by omega⟩
      refine ⟨glyph ++ " " ++ (intRepr (pyInt (x.current.temp - 273.15)) ++ "°")
          ++ String.mk (List.replicate k ' '), ?_⟩
      simp only [textBase, alertsSuffix, format_temp, pyLjust, hk, List.replicate_succ',
        strMk_append, String.append_assoc, String.append_empty]
  · intro as hsome
    subst ht
    rw [hsome]
    exact ⟨textBase glyph x.current, rfl⟩

/-- Witness for C10 on a concrete successful no-alert run. -/
theorem C10_trim_asymmetry_witness :
    main' env0 icons0 snapNone = Except.ok [OutEvent.write
        (jsonDumps ((render env0 icons0 snapNone).toOption.getD ("", "")).1
          (pyStrip ((render env0 icons0 snapNone).toOption.getD ("", "")).2)),
      OutEvent.flush]
    ∧ (snapNone.alerts = none →
        strEndsWith ((render env0 icons0 snapNone).toOption.getD ("", "")).1
          (String.mk (List.replicate
            (4 - (intRepr (pyInt (snapNone.current.temp - 273.15)) ++ "°").length) ' '))
        ∧ ((intRepr (pyInt (snapNone.current.temp - 273.15)) ++ "°").length < 4 →
            strEndsWith ((render env0 icons0 snapNone).toOption.getD ("", "")).1 " "))
    ∧ (∀ as, snapNone.alerts = some as →
        strEndsWith ((render env0 icons0 snapNone).toOption.getD ("", "")).1 " ⚠️ ") :=
  C10_trim_asymmetry env0 icons0 snapNone _ _ rfl

/-- Counterexample to C2 as stated: `ljust(4)` counts the degree glyph
as one character, so `format_temp 300` is `"26° "` (width 4), not
`"26°"`, and `format_temp 273.15` is `"0°  "` (two pad spaces), not
`"0° "`. -/
theorem C2_format_temp_counterexample :
    format_temp 300 ≠ "26°" ∧ format_temp (273.15 : ℚ) ≠ "0° " := by
  rw [format_temp_300, format_temp_27315]
  exact ⟨by decide, by decide⟩

/-- C2 (amended): `format_temp` converts Kelvin to Celsius by
subtracting 273.15, truncates toward zero, appends the degree glyph and
left-justifies to minimum width 4; `format_temp 273.15 = "0°  "` and
`format_temp 300 = "26° "`, and every result has length at least 4. -/
theorem C2_format_temp_amended :
    format_temp (273.15 : ℚ) = "0°  "
    ∧ format_temp 300 = "26° "
    ∧ (∀ q : ℚ, format_temp q
        = pyLjust (intRepr (if 0 ≤ q - 273.15 then ⌊q - 273.15⌋ else ⌈q - 273.15⌉) ++ "°") 4)
    ∧ (∀ q : ℚ, 4 ≤ (format_temp q).length) := by
  refine ⟨format_temp_27315, format_temp_300, ?_, ?_⟩
  · intro q
    unfold format_temp
    rw [pyInt_eq]
  · intro q
    unfold format_temp pyLjust
    rw [String.length_append]
    have hrep : (String.mk (List.replicate
        (4 - (intRepr (pyInt (q - 273.15)) ++ "°").length) ' ')).length
        = 4 - (intRepr (pyInt (q - 273.15)) ++ "°").length := by
      show (List.replicate (4 - (intRepr (pyInt (q - 273.15)) ++ "°").length) ' ').length = _
      exact List.length_replicate _ _
    omega

theorem pyInt_floor_of_nonneg {q : ℚ} (h : 0 ≤ q) : pyInt q = ⌊q⌋ := by
  rw [pyInt_eq, if_pos h]

/-- C3: for nonnegative degrees the compass lookup is exactly
`cardinal[round(d / 22.5) % 16]` with round half up; the four stated
examples hold; on `[0, 360)` the result is always one of the sixteen
compass strings and the map is periodic with period 360. -/
theorem C3_wind_direction :
    (∀ d : ℚ, 0 ≤ d →
        format_wind_direction d = cardinal.getD ((round (d / 22.5)) % 16).toNat "?")
    ∧ format_wind_direction 0 = "N"
    ∧ format_wind_direction 360 = "N"
    ∧ format_wind_direction (22.5 : ℚ) = "NNE"
    ∧ format_wind_direction 180 = "S"
    ∧ (∀ d : ℚ, 0 ≤ d → d < 360 →
        format_wind_direction d ∈ cardinal
        ∧ format_wind_direction (d + 360) = format_wind_direction d) := by
  have hhalf : (0.5 : ℚ) = 1 / 2 := by norm_num
  have key : ∀ d : ℚ, 0 ≤ d → pyInt (d / 22.5 + 0.5) = round (d / 22.5) := by
    intro d hd
    have hx : 0 ≤ d / 22.5 + 0.5 := by
      have := div_nonneg hd (by norm_num : (0:ℚ) ≤ 22.5)
      linarith
    rw [pyInt_floor_of_nonneg hx, round_eq, hhalf]
  refine ⟨?_, ?_, ?_, ?_, ?_, ?_⟩
  · intro d hd
    unfold format_wind_direction
    rw [key d hd]
  · have h : pyInt ((0:ℚ) / 22.5 + 0.5) = 0 := by
      rw [pyInt_floor_of_nonneg (by norm_num)]
      norm_num
    unfold format_wind_direction
    rw [h]
    decide
  · have h : pyInt ((360:ℚ) / 22.5 + 0.5) = 16 := by
      rw [pyInt_floor_of_nonneg (by norm_num)]
      norm_num
    unfold format_wind_direction
    rw [h]
    decide
  · have h : pyInt ((22.5:ℚ) / 22.5 + 0.5) = 1 := by
      rw [pyInt_floor_of_nonneg (by norm_num)]
      norm_num
    unfold format_wind_direction
    rw [h]
    decide
  · have h : pyInt ((180:ℚ) / 22.5 + 0.5) = 8 := by
      rw [pyInt_floor_of_nonneg (by norm_num)]
      norm_num
    unfold format_wind_direction
    rw [h]
    decide
  · intro d hd _
    refine ⟨format_wind_direction_mem d, ?_⟩
    have hx : 0 ≤ d / 22.5 + 0.5 := by
      have := div_nonneg hd (by norm_num : (0:ℚ) ≤ 22.5)
      linarith
    have harg : (d + 360) / 22.5 + 0.5 = d / 22.5 + 0.5 + 16 := by ring
    have h16 : (16 : ℚ) = ((16 : ℤ) : ℚ) := by norm_num
    have hshift : pyInt ((d + 360) / 22.5 + 0.5) = pyInt (d / 22.5 + 0.5) + 16 := by
      rw [harg, pyInt_floor_of_nonneg (by linarith), pyInt_floor_of_nonneg hx,
        h16, Int.floor_add_int]
    unfold format_wind_direction
    rw [hshift]
    have hmod : (pyInt (d / 22.5 + 0.5) + 16) % 16 = pyInt (d / 22.5 + 0.5) % 16 := by
      omega
    rw [hmod]

/-- Witness for C3 at degree 45 (and its period shift 405). -/
theorem C3_wind_direction_witness :
    format_wind_direction 45 = cardinal.getD ((round ((45:ℚ) / 22.5)) % 16).toNat "?"
    ∧ (format_wind_direction 45 ∈ cardinal
        ∧ format_wind_direction ((45:ℚ) + 360) = format_wind_direction 45) :=
  ⟨C3_wind_direction.1 45 (by norm_num),
   C3_wind_direction.2.2.2.2.2 45 (by norm_num) (by norm_num)⟩

theorem countA_format_temp (q : ℚ) : countChar 'A' (format_temp q) = 0 :=
  countChar_format_temp (by decide) (by decide) (by decide) (by decide) q

theorem countW_format_temp (q : ℚ) : countChar '⚠' (format_temp q) = 0 :=
  countChar_format_temp (by decide) (by decide) (by decide) (by decide) q

theorem countA_fwd (d : ℚ) : countChar 'A' (format_wind_direction d) = 0 :=
  countChar_format_wind_direction (by decide) (by decide) (by decide) (by decide) d

theorem countA_intRepr' (i : ℤ) : countChar 'A' (intRepr i) = 0 :=
  countChar_intRepr (by decide) (by decide) i

theorem countA_natRepr' (n : ℕ) : countChar 'A' (natRepr n) = 0 :=
  countChar_natRepr (by decide) n

theorem lookupIcon_ok_mem {icons : Icons} {k glyph : String}
    (h : lookupIcon icons k = Except.ok glyph) : (k, glyph) ∈ icons := by
  cases hlk : List.lookup k icons with
  | none => simp [lookupIcon, hlk] at h
  | some g =>
    simp only [lookupIcon, hlk, Except.ok.injEq] at h
    subst h
    exact lookup_mem hlk

theorem snd_mem_enum {α : Type} {l : List α} {p : ℕ × α} (h : p ∈ l.enum) : p.2 ∈ l := by
  have := List.mem_map_of_mem Prod.snd h
  rwa [List.enum_map_snd] at this

theorem countA_hourLine (env : Env) (he : ∀ i : ℤ, countChar 'A' (env.fmtHM i) = 0)
    {glyph : String} (hg : countChar 'A' glyph = 0) (h : HourRec)
    (hd : countChar 'A' h.weather.description = 0) :
    countChar 'A' (hourLine env glyph h) = 0 := by
  have hpc := countChar_pyCenter (show ('A':Char) ≠ ' ' by decide)
  simp only [hourLine, joinNL, countChar_append, he, hg, hd, hpc, countA_format_temp]
  decide

theorem countA_dayLine (env : Env) (heA : ∀ i : ℤ, countChar 'A' (env.fmtA i) = 0)
    (heR : ∀ q : ℚ, countChar 'A' (env.reprNum q) = 0)
    {glyph : String} (hg : countChar 'A' glyph = 0) (d : DayRec)
    (hd : countChar 'A' d.weather.description = 0) :
    countChar 'A' (dayLine env glyph d) = 0 := by
  have hpl := countChar_pyLjust (show ('A':Char) ≠ ' ' by decide)
  simp only [dayLine, joinNL, countChar_append, heA, heR, hg, hd, hpl,
    countA_format_temp, countA_fwd, countA_intRepr', countA_natRepr']
  decide

theorem countA_currentBlock (env : Env) (heR : ∀ q : ℚ, countChar 'A' (env.reprNum q) = 0)
    {glyph : String} (hg : countChar 'A' glyph = 0) (c : CurrentRec)
    (hd : countChar 'A' c.weather.description = 0) :
    countChar 'A' (currentBlock env glyph c) = 0 := by
  have hpl := countChar_pyLjust (show ('A':Char) ≠ ' ' by decide)
  simp only [currentBlock, joinNL, countChar_append, heR, hg, hd, hpl,
    countA_format_temp, countA_fwd, countA_intRepr', countA_natRepr']
  decide

theorem countA_footerLine (env : Env) (heT : ∀ i : ℤ, countChar 'A' (env.fmtT i) = 0)
    (c : CurrentRec) : countChar 'A' (footerLine env c) = 0 := by
  simp only [footerLine, joinNL, countChar_append, heT]
  decide

theorem renderHours_countA (env : Env) (icons : Icons)
    (he : ∀ i : ℤ, countChar 'A' (env.fmtHM i) = 0) (hi : iconsClean icons) :
    ∀ ps : List (ℕ × HourRec), (∀ p ∈ ps, countChar 'A' p.2.weather.description = 0) →
      ∀ s, renderHours env icons ps = Except.ok s → countChar 'A' s = 0 := by
  intro ps
  induction ps with
  | nil =>
    intro _ s hs
    simp only [renderHours, Except.ok.injEq] at hs
    subst hs
    decide
  | cons p rest ih =>
    intro hdesc s hs
    obtain ⟨i, h⟩ := p
    rw [renderHours] at hs
    by_cases hskip : hourSkip i = true
    · rw [if_pos hskip] at hs
      exact ih (fun p hp => hdesc p (List.mem_cons_of_mem _ hp)) s hs
    · rw [if_neg hskip] at hs
      cases hg : lookupIcon icons h.weather.icon with
      | error e =>
        rw [hg] at hs
        simp [Bind.bind, Except.bind] at hs
      | ok glyph =>
        cases ht : renderHours env icons rest with
        | error e =>
          rw [hg, ht] at hs
          simp [Bind.bind, Except.bind] at hs
        | ok tail =>
          rw [hg, ht] at hs
          simp only [Bind.bind, Except.bind, Except.ok.injEq] at hs
          subst hs
          rw [countChar_append]
          have hga : countChar 'A' glyph = 0 := (hi _ (lookupIcon_ok_mem hg)).2
          rw [countA_hourLine env he hga h (hdesc (i, h) (List.mem_cons_self _ _)),
            ih (fun p hp => hdesc p (List.mem_cons_of_mem _ hp)) tail ht]

theorem renderDays_countA (env : Env) (icons : Icons)
    (heA : ∀ i : ℤ, countChar 'A' (env.fmtA i) = 0)
    (heR : ∀ q : ℚ, countChar 'A' (env.reprNum q) = 0) (hi : iconsClean icons) :
    ∀ ps : List (ℕ × DayRec), (∀ p ∈ ps, countChar 'A' p.2.weather.description = 0) →
      ∀ s, renderDays env icons ps = Except.ok s → countChar 'A' s = 0 := by
  intro ps
  induction ps with
  | nil =>
    intro _ s hs
    simp only [renderDays, Except.ok.injEq] at hs
    subst hs
    decide
  | cons p rest ih =>
    intro hdesc s hs
    obtain ⟨i, d⟩ := p
    rw [renderDays] at hs
    by_cases hskip : daySkip i = true
    · rw [if_pos hskip] at hs
      exact ih (fun p hp => hdesc p (List.mem_cons_of_mem _ hp)) s hs
    · rw [if_neg hskip] at hs
      cases hg : lookupIcon icons d.weather.icon with
      | error e =>
        rw [hg] at hs
        simp [Bind.bind, Except.bind] at hs
      | ok glyph =>
        cases ht : renderDays env icons rest with
        | error e =>
          rw [hg, ht] at hs
          simp [Bind.bind, Except.bind] at hs
        | ok tail =>
          rw [hg, ht] at hs
          simp only [Bind.bind, Except.bind, Except.ok.injEq] at hs
          subst hs
          rw [countChar_append]
          have hga : countChar 'A' glyph = 0 := (hi _ (lookupIcon_ok_mem hg)).2
          rw [countA_dayLine env heA heR hga d (hdesc (i, d) (List.mem_cons_self _ _)),
            ih (fun p hp => hdesc p (List.mem_cons_of_mem _ hp)) tail ht]

/-- The one-alert fragment written out: the formatted start instant is
rendered, then the formatted end instant, then the description. -/
theorem renderAlert_eq (env : Env) (a : Alert) :
    renderAlert env a = "<i>" ++ env.fmtHMA a.start ++ "</i> - <i>" ++ env.fmtHMA a.stop
      ++ "</i>" ++ "\n" ++ "-" ++ "\n" ++ "\n" ++ a.description ++ "\n" ++ "\n" := by
  simp only [renderAlert, joinNL, String.append_assoc, String.append_empty,
    String.empty_append]

/-- C4: with no `alerts` key the text carries no warning glyph and the
tooltip has no Alerts block (no capital `A` at all, so in particular the
header `"<b>Alerts</b>"` occurs nowhere); with exactly one alert the
text carries exactly one warning glyph and the tooltip carries exactly
one alert entry — header, then the single rendered alert with its start
instant before its end instant, then the footer.  The cleanliness side
conditions say the configured glyphs, descriptions and timestamp
renderings do not themselves contain a warning glyph or a capital `A`. -/
theorem C4_alert_signaling (env : Env) (icons : Icons) (x : Snapshot) (t tt : String)
    (hr : render env icons x = Except.ok (t, tt))
    (hicons : iconsClean icons) (henv : envClean env) (hsnap : snapClean x) :
    (x.alerts = none →
        countChar '⚠' t = 0
        ∧ countChar 'A' tt = 0
        ∧ ¬ strContains tt "<b>Alerts</b>")
    ∧ (∀ a, x.alerts = some [a] →
        countChar '⚠' t = 1
        ∧ ∃ pre, tt = pre ++ "<b>Alerts</b>\n---\n\n" ++ renderAlert env a
              ++ footerLine env x.current
          ∧ countChar 'A' pre = 0
          ∧ renderAlert env a = "<i>" ++ env.fmtHMA a.start ++ "</i> - <i>"
              ++ env.fmtHMA a.stop ++ "</i>" ++ "\n" ++ "-" ++ "\n" ++ "\n"
              ++ a.description ++ "\n" ++ "\n") := by
  obtain ⟨glyph, hoursStr, daysStr, hg, hh, hd, ht, htt⟩ :=
    (render_ok_iff env icons x t tt).mp hr
  obtain ⟨heT, heHM, heA, heR⟩ := henv
  obtain ⟨hcd, hhd, hdd⟩ := hsnap
  have hgm := lookupIcon_ok_mem hg
  have hgw : countChar '⚠' glyph = 0 := (hicons _ hgm).1
  have hga : countChar 'A' glyph = 0 := (hicons _ hgm).2
  have hhours : countChar 'A' hoursStr = 0 :=
    renderHours_countA env icons heHM hicons x.hourly.enum
      (fun p hp => hhd p.2 (snd_mem_enum hp)) hoursStr hh
  have hdays : countChar 'A' daysStr = 0 :=
    renderDays_countA env icons heA heR hicons x.daily.enum
      (fun p hp => hdd p.2 (snd_mem_enum hp)) daysStr hd
  have hcb : countChar 'A' (currentBlock env glyph x.current) = 0 :=
    countA_currentBlock env heR hga x.current hcd
  have hfl : countChar 'A' (footerLine env x.current) = 0 := countA_footerLine env heT x.current
  have hpre : countChar 'A'
      (currentBlock env glyph x.current ++ hoursStr ++ "\n" ++ daysStr) = 0 := by
    simp only [countChar_append, hcb, hhours, hdays]
    decide
  constructor
  · intro hnone
    subst ht
    subst htt
    rw [hnone]
    have htext : countChar '⚠' (textBase glyph x.current ++ alertsSuffix none) = 0 := by
      simp only [textBase, alertsSuffix, countChar_append, hgw, countW_format_temp]
      decide
    have htta : countChar 'A' (currentBlock env glyph x.current ++ hoursStr ++ "\n" ++ daysStr
        ++ alertsBlock env none ++ footerLine env x.current) = 0 := by
      simp only [alertsBlock, countChar_append, hcb, hhours, hdays, hfl]
      decide
    exact ⟨htext, htta, not_strContains_of_count htta (by decide)⟩
  · intro a hsome
    subst ht
    subst htt
    rw [hsome]
    refine ⟨?_, ⟨currentBlock env glyph x.current ++ hoursStr ++ "\n" ++ daysStr, ?_,
      hpre, renderAlert_eq env a⟩⟩
    · simp only [textBase, alertsSuffix, countChar_append, hgw, countW_format_temp]
      decide
    · rw [alertsBlock_one]
      simp only [String.append_assoc]

/-- Witness for C4 on a concrete one-alert snapshot. -/
theorem C4_alert_signaling_witness :
    (snapOne.alerts = none →
        countChar '⚠' ((render env0 icons0 snapOne).toOption.getD ("", "")).1 = 0
        ∧ countChar 'A' ((render env0 icons0 snapOne).toOption.getD ("", "")).2 = 0
        ∧ ¬ strContains ((render env0 icons0 snapOne).toOption.getD ("", "")).2 "<b>Alerts</b>")
    ∧ (∀ a, snapOne.alerts = some [a] →
        countChar '⚠' ((render env0 icons0 snapOne).toOption.getD ("", "")).1 = 1
        ∧ ∃ pre, ((render env0 icons0 snapOne).toOption.getD ("", "")).2
              = pre ++ "<b>Alerts</b>\n---\n\n" ++ renderAlert env0 a
              ++ footerLine env0 snapOne.current
          ∧ countChar 'A' pre = 0
          ∧ renderAlert env0 a = "<i>" ++ env0.fmtHMA a.start ++ "</i> - <i>"
              ++ env0.fmtHMA a.stop ++ "</i>" ++ "\n" ++ "-" ++ "\n" ++ "\n"
              ++ a.description ++ "\n" ++ "\n") :=
  C4_alert_signaling env0 icons0 snapOne _ _ rfl
    (by
      intro p hp
      simp only [icons0, List.mem_cons, List.not_mem_nil, or_false] at hp
      rw [hp]
      exact ⟨by decide, by decide⟩)
    ⟨fun i => (by decide : countChar 'A' "00:00:00" = 0),
     fun i => (by decide : countChar 'A' "01:00" = 0),
     fun i => (by decide : countChar 'A' "Mon" = 0),
     fun q => (by decide : countChar 'A' "0" = 0)⟩
    ⟨by decide, by simp [snapOne], by simp [snapOne]⟩

